import Mathlib

/-!
Verification of the ace_english spaced-repetition scheduling engine.

This file is a shallow embedding of the FSRS-4.5 scheduler implemented in
`packages/core/src/services/fsrs.ts`, of the session composer in
`packages/core/src/services/vocabulary-detail.ts`, and of the SQL progress
aggregator `update_book_progress_stats` from the database migration.

Modelling conventions:
* JavaScript numbers are modelled as rationals (`ℚ`).  `Math.round` is
  `jsRound` (floor of x + 1/2, which is exactly JS rounding), `Math.floor`
  is `jsFloor`.
* Timestamps (`Date.getTime()`) are rationals counting milliseconds; the
  source's `addDays` (calendar day arithmetic via `setDate`) is modelled as
  adding a fixed 86400000 ms per day.
* `Math.random()` is modelled by an explicit stream `g : ℕ → ℚ`: `g i` is
  the value returned by the i-th call to `Math.random()` performed by the
  scheduler call being analysed.
* The float transcendentals `Math.exp` and `Math.pow` (with non-integer
  exponents) are abstracted as the fields of a `JSMath` parameter; every
  theorem below holds for an arbitrary `JSMath`, because the source clamps
  each use of those functions with `Math.max`/`Math.min`.
-/

namespace AceEnglish

/-- `FSRSState` from `types/vocabulary.ts`:
`"new" | "learning" | "review" | "relearning"`. -/
inductive FSRSState where
  | new
  | learning
  | review
  | relearning
deriving DecidableEq, Repr

/-- `FSRSRating` from `types/vocabulary.ts`: `1 | 2 | 3 | 4`
(1 = Again, 2 = Hard, 3 = Good, 4 = Easy). -/
inductive FSRSRating where
  | again
  | hard
  | good
  | easy
deriving DecidableEq, Repr

/-- The numeric value of a rating (1..4), used where the source does
arithmetic or array indexing with the rating. -/
def FSRSRating.val : FSRSRating → ℕ
  | .again => 1
  | .hard => 2
  | .good => 3
  | .easy => 4

/-- JS `Math.round`: round half towards positive infinity. -/
def jsRound (q : ℚ) : ℚ := (⌊q + 1/2⌋ : ℤ)

/-- JS `Math.floor`. -/
def jsFloor (q : ℚ) : ℚ := (⌊q⌋ : ℤ)

/-- `FSRSParameters` from `types/vocabulary.ts` (the weight array is
modelled as a function, indexed like the source's `w[i]`). -/
structure FSRSParameters where
  requestRetention : ℚ
  maximumInterval : ℚ
  w : ℕ → ℚ

/-- The FSRS-4.5 default weight vector of `DEFAULT_FSRS_PARAMS`. -/
def DEFAULT_W : List ℚ :=
  [0.4, 0.6, 2.4, 5.8, 4.93, 0.94, 0.86, 0.01, 1.49, 0.14, 0.94, 2.18,
   0.05, 0.34, 1.26, 0.29, 2.61]

/-- `DEFAULT_FSRS_PARAMS` from `types/vocabulary.ts`. -/
def DEFAULT_FSRS_PARAMS : FSRSParameters where
  requestRetention := 0.9
  maximumInterval := 365
  w := fun n => DEFAULT_W.getD n 0

/-- `LEARNING_STEPS` from `types/vocabulary.ts` (minutes per rating). -/
def LEARNING_STEPS : FSRSRating → ℚ
  | .again => 1
  | .hard => 5
  | .good => 10
  | .easy => 60

/-- `LEARNING_GRADUATION_STEPS` from `types/vocabulary.ts`. -/
def LEARNING_GRADUATION_STEPS : ℕ := 2

/-- Abstraction of the IEEE-754 `Math.exp` and `Math.pow` primitives used
by the stability formulas.  They are kept abstract because no claim below
depends on their values (the source clamps every use). -/
structure JSMath where
  exp : ℚ → ℚ
  powq : ℚ → ℚ → ℚ

/-- The scheduling record handled by `FSRSScheduler.review`: the union of
the fields of the `Pick<UserWordProgress, ...>` input and the
`SchedulingResult` output (the statistics fields `reps`/`lapses`, which
`review` receives but never reads nor writes, are omitted). -/
structure SchedulingRecord where
  state : FSRSState
  difficulty : ℚ
  stability : ℚ
  retrievability : ℚ
  elapsed_days : ℚ
  scheduled_days : ℚ
  due_at : ℚ
  learning_step : ℕ
  is_learning_phase : Bool
deriving DecidableEq, Repr

namespace FSRSScheduler

/-- `FSRSScheduler.initDifficulty`: `clamp(w4 - (G-3)*w5, 1, 10)`. -/
def initDifficulty (p : FSRSParameters) (rating : FSRSRating) : ℚ :=
  max 1 (min 10 (p.w 4 - ((rating.val : ℚ) - 3) * p.w 5))

/-- `FSRSScheduler.initStability`: `max(0.1, w[G-1])`. -/
def initStability (p : FSRSParameters) (rating : FSRSRating) : ℚ :=
  max 0.1 (p.w (rating.val - 1))

/-- `FSRSScheduler.nextDifficulty`: `w7`-blend with mean reversion,
clamped to `[1, 10]`. -/
def nextDifficulty (p : FSRSParameters) (difficulty : ℚ)
    (rating : FSRSRating) : ℚ :=
  let d0 := initDifficulty p rating
  let newD := p.w 7 * d0 + (1 - p.w 7) * difficulty
  let meanReversion := p.w 7 * (d0 - newD)
  max 1 (min 10 (newD + meanReversion))

/-- `FSRSScheduler.retrievability`: `(1 + t/(9S))^(-1)`, 0 when `S ≤ 0`. -/
def retrievability (elapsedDays stability : ℚ) : ℚ :=
  if stability ≤ 0 then 0 else 1 / (1 + elapsedDays / (9 * stability))

/-- `FSRSScheduler.nextInterval`:
`if (stability <= 0 || retention <= 0 || retention >= 1) return 1;
 return Math.round(9 * stability * (1 / retention - 1))`. -/
def nextInterval (stability retention : ℚ) : ℚ :=
  if stability ≤ 0 ∨ retention ≤ 0 ∨ 1 ≤ retention then 1
  else jsRound (9 * stability * (1 / retention - 1))

/-- `FSRSScheduler.nextStabilitySuccess`, clamped to
`[0.1, maximumInterval]`. -/
def nextStabilitySuccess (M : JSMath) (p : FSRSParameters)
    (difficulty stability retr : ℚ) (rating : FSRSRating) : ℚ :=
  let hardPenalty := if rating = FSRSRating.hard then p.w 15 else 1
  let easyBonus := if rating = FSRSRating.easy then p.w 16 else 1
  let newS := stability *
    (M.exp (p.w 8) * (11 - difficulty) * M.powq stability (-(p.w 9)) *
      (M.exp (p.w 10 * (1 - retr)) - 1) * hardPenalty * easyBonus + 1)
  max 0.1 (min newS p.maximumInterval)

/-- `FSRSScheduler.nextStabilityFailure`, clamped to `[0.1, stability]`. -/
def nextStabilityFailure (M : JSMath) (p : FSRSParameters)
    (difficulty stability retr : ℚ) : ℚ :=
  let newS := p.w 11 * M.powq difficulty (-(p.w 12)) *
    (M.powq (stability + 1) (p.w 13) - 1) * M.exp (p.w 14 * (1 - retr))
  max 0.1 (min newS stability)

/-- `FSRSScheduler.fuzzInterval`; `draw` is the `Math.random()` sample
consumed by this call. -/
def fuzzInterval (interval : ℚ) (draw : ℚ) : ℚ :=
  if interval ≤ 2 then interval
  else
    let fuzzRange := max 1 (jsRound (interval * 0.05))
    let fuzz := jsFloor (draw * (2 * fuzzRange + 1)) - fuzzRange
    max 1 (interval + fuzz)

/-- `FSRSScheduler.addDays` (one calendar day = 86400000 ms in this
model). -/
def addDays (date : ℚ) (days : ℚ) : ℚ := date + days * 86400000

set_option linter.unusedVariables false in
/-- `FSRSScheduler.reviewLearningPhase`.  The stream `g` lists the
`Math.random()` samples drawn during the call, in evaluation order (the
graduation branches evaluate `fuzzInterval` once for `scheduled_days` and
once more, independently, for `due_at`).  The `|| this.initDifficulty(3)`
/ `|| this.initStability(3)` JS-falsy defaults are modelled as a test
against 0. -/
def reviewLearningPhase (M : JSMath) (p : FSRSParameters)
    (progress : SchedulingRecord) (rating : FSRSRating) (now : ℚ)
    (g : ℕ → ℚ) : SchedulingRecord :=
  let learning_step := progress.learning_step
  let intervalMinutes := LEARNING_STEPS rating
  if progress.state = FSRSState.new then
    let newDifficulty := initDifficulty p rating
    let newStability := initStability p rating
    if rating = FSRSRating.again then
      { state := .learning, difficulty := newDifficulty,
        stability := newStability, retrievability := 1, elapsed_days := 0,
        scheduled_days := 0, due_at := now + intervalMinutes * 60 * 1000,
        learning_step := 0, is_learning_phase := true }
    else if rating = FSRSRating.easy then
      let interval := max 1 (nextInterval newStability p.requestRetention)
      { state := .review, difficulty := newDifficulty,
        stability := newStability, retrievability := 1, elapsed_days := 0,
        scheduled_days := fuzzInterval interval (g 0),
        due_at := addDays now (fuzzInterval interval (g 1)),
        learning_step := 0, is_learning_phase := false }
    else
      let nextStep : ℕ := if rating = FSRSRating.good then 1 else 0
      if LEARNING_GRADUATION_STEPS ≤ nextStep then
        let interval := max 1 (nextInterval newStability p.requestRetention)
        { state := .review, difficulty := newDifficulty,
          stability := newStability, retrievability := 1, elapsed_days := 0,
          scheduled_days := fuzzInterval interval (g 0),
          due_at := addDays now (fuzzInterval interval (g 1)),
          learning_step := 0, is_learning_phase := false }
      else
        { state := .learning, difficulty := newDifficulty,
          stability := newStability, retrievability := 1, elapsed_days := 0,
          scheduled_days := 0, due_at := now + intervalMinutes * 60 * 1000,
          learning_step := nextStep, is_learning_phase := true }
  else
    let currentDifficulty :=
      if progress.difficulty = 0 then initDifficulty p FSRSRating.good
      else progress.difficulty
    let currentStability :=
      if progress.stability = 0 then initStability p FSRSRating.good
      else progress.stability
    if rating = FSRSRating.again then
      { state := .learning, difficulty := currentDifficulty,
        stability := max 0.1 (currentStability * 0.5),
        retrievability := 1, elapsed_days := 0, scheduled_days := 0,
        due_at := now + intervalMinutes * 60 * 1000,
        learning_step := 0, is_learning_phase := true }
    else if rating = FSRSRating.easy then
      let newStability := max (currentStability * 1.5) 1
      let interval := max 1 (nextInterval newStability p.requestRetention)
      { state := .review,
        difficulty := nextDifficulty p currentDifficulty rating,
        stability := newStability, retrievability := 1, elapsed_days := 0,
        scheduled_days := fuzzInterval interval (g 0),
        due_at := addDays now (fuzzInterval interval (g 1)),
        learning_step := 0, is_learning_phase := false }
    else
      let stepIncrement : ℕ := if rating = FSRSRating.good then 1 else 0
      let nextStep := learning_step + stepIncrement
      if LEARNING_GRADUATION_STEPS ≤ nextStep then
        let interval :=
          max 1 (nextInterval currentStability p.requestRetention)
        { state := .review,
          difficulty := nextDifficulty p currentDifficulty rating,
          stability := currentStability, retrievability := 1,
          elapsed_days := 0,
          scheduled_days := fuzzInterval interval (g 0),
          due_at := addDays now (fuzzInterval interval (g 1)),
          learning_step := 0, is_learning_phase := false }
      else
        { state := .learning, difficulty := currentDifficulty,
          stability := currentStability, retrievability := 1,
          elapsed_days := 0, scheduled_days := 0,
          due_at := now + intervalMinutes * 60 * 1000,
          learning_step := nextStep, is_learning_phase := true }

/-- `FSRSScheduler.reviewDayPhase`. -/
def reviewDayPhase (M : JSMath) (p : FSRSParameters)
    (progress : SchedulingRecord) (rating : FSRSRating) (now : ℚ)
    (g : ℕ → ℚ) : SchedulingRecord :=
  let difficulty := progress.difficulty
  let stability := progress.stability
  let elapsed_days := progress.elapsed_days
  let retr := retrievability elapsed_days stability
  if rating = FSRSRating.again then
    let newStability := nextStabilityFailure M p difficulty stability retr
    let intervalMinutes := LEARNING_STEPS FSRSRating.again
    { state := .relearning,
      difficulty := nextDifficulty p difficulty FSRSRating.again,
      stability := newStability, retrievability := 0, elapsed_days := 0,
      scheduled_days := 0, due_at := now + intervalMinutes * 60 * 1000,
      learning_step := 0, is_learning_phase := true }
  else
    let newDifficulty := nextDifficulty p difficulty rating
    let newStability :=
      nextStabilitySuccess M p difficulty stability retr rating
    let interval :=
      max 1 (min (nextInterval newStability p.requestRetention)
        p.maximumInterval)
    let fuzzedInterval := fuzzInterval interval (g 0)
    { state := .review, difficulty := newDifficulty,
      stability := newStability,
      retrievability := retrievability 0 newStability, elapsed_days := 0,
      scheduled_days := fuzzedInterval,
      due_at := addDays now fuzzedInterval,
      learning_step := 0, is_learning_phase := false }

/-- `FSRSScheduler.review`: dispatch between the short-term and long-term
regimes. -/
def review (M : JSMath) (p : FSRSParameters) (progress : SchedulingRecord)
    (rating : FSRSRating) (now : ℚ) (g : ℕ → ℚ) : SchedulingRecord :=
  if progress.is_learning_phase = true ∨ progress.state = FSRSState.new ∨
      progress.state = FSRSState.learning then
    reviewLearningPhase M p progress rating now g
  else
    reviewDayPhase M p progress rating now g

end FSRSScheduler

/-- Iterated reviews: fold `review` over a list of
(rating, time, random-stream) triples. -/
def reviewFold (M : JSMath) (p : FSRSParameters) (r : SchedulingRecord)
    (l : List (FSRSRating × ℚ × (ℕ → ℚ))) : SchedulingRecord :=
  l.foldl (fun acc e => FSRSScheduler.review M p acc e.1 e.2.1 e.2.2) r

/-- The scheduling fields of `createInitialWordProgress` (`fsrs.ts`):
a fresh record, due immediately. -/
def createInitialWordProgress (now : ℚ) : SchedulingRecord where
  state := .new
  difficulty := 0
  stability := 0
  retrievability := 1
  elapsed_days := 0
  scheduled_days := 0
  due_at := now
  learning_step := 0
  is_learning_phase := true

/-- Renders an integer-valued rational the way JS renders an integral
number (all quantities displayed by the preview are integer-valued). -/
def qstr (q : ℚ) : String := toString q.num

/-- The per-rating label computation of the loop body of
`FSRSScheduler.getSchedulePreview`, applied to the result of the internal
`review` run: minutes/hours while still in the learning phase,
days/months/years (from `scheduled_days`) otherwise. -/
def deltaLabel (now : ℚ) (result : SchedulingRecord) : String :=
  if result.is_learning_phase then
    let minutes := jsRound ((result.due_at - now) / 60000)
    if minutes < 60 then qstr minutes ++ "m"
    else qstr (jsRound (minutes / 60)) ++ "h"
  else
    let days := result.scheduled_days
    if days = 1 then "1d"
    else if days < 30 then qstr days ++ "d"
    else if days < 365 then qstr (jsRound (days / 30)) ++ "mo"
    else qstr (jsRound (days / 365)) ++ "y"

/-- `FSRSScheduler.getSchedulePreview`: runs `review` for each of the four
ratings at the current time and formats the resulting delay.  The preview
draws fresh `Math.random()` samples for each internal `review` run;
`g rating` lists the samples available to the run for `rating`. -/
def getSchedulePreview (M : JSMath) (p : FSRSParameters)
    (progress : SchedulingRecord) (now : ℚ)
    (g : FSRSRating → ℕ → ℚ) : FSRSRating → String :=
  fun rating =>
    deltaLabel now (FSRSScheduler.review M p progress rating now (g rating))

/-- The display mastery level returned by `stateToMasteryLevel`. -/
inductive MasteryLevel where
  | new
  | learning
  | mastered
deriving DecidableEq, Repr

/-- `stateToMasteryLevel` from `fsrs.ts`. -/
def stateToMasteryLevel (state : FSRSState) (stability : ℚ) : MasteryLevel :=
  if state = FSRSState.new then .new
  else if state = FSRSState.review ∧ 21 < stability then .mastered
  else .learning

/-- The `mastered` filter of the SQL aggregator
`update_book_progress_stats`: `state = 'review' AND stability > 21`. -/
def sqlMastered (state : FSRSState) (stability : ℚ) : Prop :=
  state = FSRSState.review ∧ 21 < stability

/-- The `learning` filter of the SQL aggregator:
`state IN ('learning', 'relearning') OR (state = 'review' AND
stability <= 21)`. -/
def sqlLearning (state : FSRSState) (stability : ℚ) : Prop :=
  (state = FSRSState.learning ∨ state = FSRSState.relearning) ∨
    (state = FSRSState.review ∧ stability ≤ 21)

/-- The `new_words` filter of the SQL aggregator: `state = 'new'`. -/
def sqlNewWord (state : FSRSState) : Prop := state = FSRSState.new

/-- A row of the `user_word_progress` query made by
`getTodayLearningSession` (with the joined `vocabulary_words` columns
inlined). -/
structure PoolRow where
  word_id : ℕ
  word : String
  phonetic : Option String
  definition : Option String
  state : FSRSState
  stability : ℚ
  due_at : ℚ
  last_review_at : Option ℚ
  lapses : ℕ
deriving DecidableEq, Repr

/-- A row of the `vocabulary_words` table. -/
structure WordRow where
  id : ℕ
  word : String
  phonetic : Option String
  definition : Option String
deriving DecidableEq, Repr

/-- `WordWithProgress` from `types/vocabulary.ts`. -/
structure WordWithProgress where
  id : ℕ
  word : String
  phonetic : Option String
  definition : Option String
  state : FSRSState
  stability : ℚ
  due_at : Option ℚ
  last_review_at : Option ℚ
  lapses : ℕ
deriving DecidableEq, Repr

/-- `TodayLearningSession` from `types/vocabulary.ts`. -/
structure TodayLearningSession where
  reviewWords : List WordWithProgress
  newWords : List WordWithProgress
  totalCount : ℕ
  estimatedMinutes : ℤ
deriving DecidableEq, Repr

/-- The due-item selection of `getTodayLearningSession`: rows with
`due_at ≤ now`, ordered by `due_at` (the query's `.order("due_at")`),
capped by `.limit(reviewLimit)`. -/
def dueQuery (pool : List PoolRow) (now : ℚ) (reviewLimit : ℕ) :
    List PoolRow :=
  (List.insertionSort (fun a b => a.due_at ≤ b.due_at)
    (pool.filter (fun pr => pr.due_at ≤ now))).take reviewLimit

/-- The per-row conversion applied to due progress rows (the `.map` over
`dueProgress` in `getTodayLearningSession`). -/
def poolRowToWord (pr : PoolRow) : WordWithProgress :=
  { id := pr.word_id, word := pr.word, phonetic := pr.phonetic,
    definition := pr.definition, state := pr.state,
    stability := pr.stability, due_at := some pr.due_at,
    last_review_at := pr.last_review_at, lapses := pr.lapses }

/-- The per-row conversion applied to unseen words (the `.map` over
`newWordsData` in `getTodayLearningSession`). -/
def wordRowToNew (wr : WordRow) : WordWithProgress :=
  { id := wr.id, word := wr.word, phonetic := wr.phonetic,
    definition := wr.definition, state := FSRSState.new, stability := 0,
    due_at := none, last_review_at := none, lapses := 0 }

/-- `getTodayLearningSession` from `vocabulary-detail.ts`, as a pure
function of the user's progress pool and the collection's word list (the
two database reads). -/
def getTodayLearningSession (pool : List PoolRow) (allWords : List WordRow)
    (now : ℚ) (newLimit reviewLimit : ℕ) : TodayLearningSession :=
  let dueProgress := dueQuery pool now reviewLimit
  let reviewWords : List WordWithProgress := dueProgress.map poolRowToWord
  let existingWordIds := pool.map (fun pr => pr.word_id)
  let newWordsData :=
    (allWords.filter (fun wr => ¬ existingWordIds.contains wr.id)).take
      newLimit
  let newWords : List WordWithProgress := newWordsData.map wordRowToNew
  let totalCount := reviewWords.length + newWords.length
  { reviewWords := reviewWords, newWords := newWords,
    totalCount := totalCount,
    estimatedMinutes := ⌈(totalCount : ℚ) * 0.5⌉ }

/-! ## Helper lemmas -/

theorem LEARNING_STEPS_pos (rating : FSRSRating) : 0 < LEARNING_STEPS rating := by
  cases rating <;> norm_num [LEARNING_STEPS]

theorem one_le_fuzzInterval {interval : ℚ} (h : 1 ≤ interval) (draw : ℚ) :
    1 ≤ FSRSScheduler.fuzzInterval interval draw := by
  unfold FSRSScheduler.fuzzInterval
  split_ifs with h2
  · exact h
  · exact le_max_left 1 _

/-- Every `review` result is due either a positive number of minutes after
`now` (short-term results) or at least one whole day after `now`
(day-scheduled results). -/
theorem review_due_shape (M : JSMath) (p : FSRSParameters)
    (r : SchedulingRecord) (rating : FSRSRating) (now : ℚ) (g : ℕ → ℚ) :
    (∃ m : ℚ, 0 < m ∧
      (FSRSScheduler.review M p r rating now g).due_at = now + m * 60 * 1000 ∧
      (FSRSScheduler.review M p r rating now g).is_learning_phase = true) ∨
    (∃ d : ℚ, 1 ≤ d ∧
      (FSRSScheduler.review M p r rating now g).due_at = now + d * 86400000 ∧
      (FSRSScheduler.review M p r rating now g).is_learning_phase = false) := by
  simp only [FSRSScheduler.review, FSRSScheduler.reviewLearningPhase,
    FSRSScheduler.reviewDayPhase, FSRSScheduler.addDays]
  split_ifs <;>
    first
      | exact Or.inl ⟨LEARNING_STEPS rating, LEARNING_STEPS_pos rating, rfl, rfl⟩
      | exact Or.inl ⟨LEARNING_STEPS FSRSRating.again,
          LEARNING_STEPS_pos FSRSRating.again, rfl, rfl⟩
      | exact Or.inr ⟨_, one_le_fuzzInterval (le_max_left 1 _) _, rfl, rfl⟩

/-- A concrete interpretation of the abstract float primitives, used to
instantiate theorems at concrete inputs. -/
def mathOne : JSMath where
  exp := fun _ => 1
  powq := fun _ _ => 1

/-- A concrete random stream: every `Math.random()` call returns 0. -/
def drawZero : ℕ → ℚ := fun _ => 0

/-- A concrete random stream: every `Math.random()` call returns 0.9. -/
def drawNine : ℕ → ℚ := fun _ => 9/10

/-- A concrete random stream whose first draw is 0 and whose later draws
are 0.9. -/
def drawPair : ℕ → ℚ := fun i => if i = 0 then 0 else 9/10

/-! ## Claims -/

/-- C2: for every scheduling record, rating and time `now`, the record
returned by `review` is due at or after `now`: learning-phase results are
due a positive number of minutes after `now`, and day-scheduled results at
least one day (86400000 ms) after `now`. -/
theorem claim_C2_due_dates (M : JSMath) (p : FSRSParameters)
    (r : SchedulingRecord) (rating : FSRSRating) (now : ℚ) (g : ℕ → ℚ) :
    now ≤ (FSRSScheduler.review M p r rating now g).due_at ∧
    ((FSRSScheduler.review M p r rating now g).is_learning_phase = true →
      ∃ m : ℚ, 0 < m ∧
        (FSRSScheduler.review M p r rating now g).due_at = now + m * 60 * 1000) ∧
    ((FSRSScheduler.review M p r rating now g).is_learning_phase = false →
      now + 86400000 ≤ (FSRSScheduler.review M p r rating now g).due_at) := by
  rcases review_due_shape M p r rating now g with ⟨m, hm, hdue, hph⟩ | ⟨d, hd, hdue, hph⟩
  · refine ⟨by rw [hdue]; nlinarith, fun _ => ⟨m, hm, hdue⟩, fun hc => ?_⟩
    rw [hc] at hph
    exact Bool.noConfusion hph
  · refine ⟨by rw [hdue]; nlinarith, fun hc => ?_, fun _ => by rw [hdue]; nlinarith⟩
    rw [hc] at hph
    exact Bool.noConfusion hph

/-- Witness for C2 at a concrete input: a fresh record reviewed with Good
at time 0. -/
theorem claim_C2_due_dates_witness :
    (0:ℚ) ≤ (FSRSScheduler.review mathOne DEFAULT_FSRS_PARAMS
      (createInitialWordProgress 0) FSRSRating.good 0 drawZero).due_at ∧
    ∃ m : ℚ, 0 < m ∧
      (FSRSScheduler.review mathOne DEFAULT_FSRS_PARAMS
        (createInitialWordProgress 0) FSRSRating.good 0 drawZero).due_at =
        0 + m * 60 * 1000 := by
  have h := claim_C2_due_dates mathOne DEFAULT_FSRS_PARAMS
    (createInitialWordProgress 0) FSRSRating.good 0 drawZero
  refine ⟨h.1, h.2.1 ?_⟩
  norm_num +decide [FSRSScheduler.review, FSRSScheduler.reviewLearningPhase,
    createInitialWordProgress, LEARNING_GRADUATION_STEPS]

/-- The first review of a new record with rating Good: the record enters
the learning phase at step 1. -/
theorem review_new_good (M : JSMath) (p : FSRSParameters)
    (r : SchedulingRecord) (h : r.state = FSRSState.new) (t : ℚ) (g : ℕ → ℚ) :
    FSRSScheduler.review M p r FSRSRating.good t g =
      { state := FSRSState.learning,
        difficulty := FSRSScheduler.initDifficulty p FSRSRating.good,
        stability := FSRSScheduler.initStability p FSRSRating.good,
        retrievability := 1, elapsed_days := 0, scheduled_days := 0,
        due_at := t + LEARNING_STEPS FSRSRating.good * 60 * 1000,
        learning_step := 1, is_learning_phase := true } := by
  simp +decide [FSRSScheduler.review, FSRSScheduler.reviewLearningPhase, h,
    LEARNING_GRADUATION_STEPS]

/-- A Hard review of a record sitting at learning step 0 of the learning
phase stays at step 0 of the learning phase. -/
theorem review_learning_hard (M : JSMath) (p : FSRSParameters)
    (r : SchedulingRecord) (h1 : r.state = FSRSState.learning)
    (h2 : r.learning_step = 0) (t : ℚ) (g : ℕ → ℚ) :
    (FSRSScheduler.review M p r FSRSRating.hard t g).state =
      FSRSState.learning ∧
    (FSRSScheduler.review M p r FSRSRating.hard t g).learning_step = 0 ∧
    (FSRSScheduler.review M p r FSRSRating.hard t g).is_learning_phase =
      true := by
  simp +decide [FSRSScheduler.review, FSRSScheduler.reviewLearningPhase, h1, h2,
    LEARNING_GRADUATION_STEPS]

/-- A Hard review of a record with `state = new` lands at learning step 0
of the learning phase. -/
theorem review_new_hard (M : JSMath) (p : FSRSParameters)
    (r : SchedulingRecord) (h : r.state = FSRSState.new) (t : ℚ) (g : ℕ → ℚ) :
    (FSRSScheduler.review M p r FSRSRating.hard t g).state =
      FSRSState.learning ∧
    (FSRSScheduler.review M p r FSRSRating.hard t g).learning_step = 0 ∧
    (FSRSScheduler.review M p r FSRSRating.hard t g).is_learning_phase =
      true := by
  simp +decide [FSRSScheduler.review, FSRSScheduler.reviewLearningPhase, h,
    LEARNING_GRADUATION_STEPS]

/-- Folding Hard reviews preserves (learning, step 0, learning phase). -/
theorem reviewFold_hard (M : JSMath) (p : FSRSParameters) :
    ∀ (l : List (FSRSRating × ℚ × (ℕ → ℚ))) (r : SchedulingRecord),
    (∀ e ∈ l, e.1 = FSRSRating.hard) → r.state = FSRSState.learning →
    r.learning_step = 0 → r.is_learning_phase = true →
    (reviewFold M p r l).state = FSRSState.learning ∧
    (reviewFold M p r l).learning_step = 0 ∧
    (reviewFold M p r l).is_learning_phase = true := by
  intro l
  induction l with
  | nil => exact fun r _ h1 h2 h3 => ⟨h1, h2, h3⟩
  | cons e tl ih =>
    intro r hl h1 h2 _
    have he : e.1 = FSRSRating.hard := hl e (List.mem_cons_self e tl)
    have hstep := review_learning_hard M p r h1 h2 e.2.1 e.2.2
    simp only [reviewFold, List.foldl_cons] at ih ⊢
    rw [he]
    exact ih (FSRSScheduler.review M p r FSRSRating.hard e.2.1 e.2.2)
      (fun x hx => hl x (List.mem_cons_of_mem e hx))
      hstep.1 hstep.2.1 hstep.2.2

/-- C1: from `state = new`, Good followed by Good graduates to
`state = review` (with the default `LEARNING_GRADUATION_STEPS = 2`); a
single Easy graduates immediately; and any nonempty sequence of Hard-only
reviews leaves the record in the short-term phase with a state other than
`review` (Hard never increments `learning_step`). -/
theorem claim_C1_graduation (M : JSMath) (p : FSRSParameters)
    (r : SchedulingRecord) (h : r.state = FSRSState.new) :
    (∀ t1 t2 : ℚ, ∀ g1 g2 : ℕ → ℚ,
      (FSRSScheduler.review M p
        (FSRSScheduler.review M p r FSRSRating.good t1 g1)
        FSRSRating.good t2 g2).state = FSRSState.review) ∧
    (∀ t : ℚ, ∀ g : ℕ → ℚ,
      (FSRSScheduler.review M p r FSRSRating.easy t g).state =
        FSRSState.review) ∧
    (∀ l : List (FSRSRating × ℚ × (ℕ → ℚ)), l ≠ [] →
      (∀ e ∈ l, e.1 = FSRSRating.hard) →
      (reviewFold M p r l).state ≠ FSRSState.review ∧
      (reviewFold M p r l).is_learning_phase = true) := by
  refine ⟨fun t1 t2 g1 g2 => ?_, fun t g => ?_, fun l hne hl => ?_⟩
  · rw [review_new_good M p r h t1 g1]
    simp +decide [FSRSScheduler.review, FSRSScheduler.reviewLearningPhase,
      LEARNING_GRADUATION_STEPS]
  · simp +decide [FSRSScheduler.review, FSRSScheduler.reviewLearningPhase, h,
      LEARNING_GRADUATION_STEPS]
  · rcases l with _ | ⟨e, tl⟩
    · exact absurd rfl hne
    · have he : e.1 = FSRSRating.hard := hl e (List.mem_cons_self e tl)
      have h0 := review_new_hard M p r h e.2.1 e.2.2
      have hfold := reviewFold_hard M p tl
        (FSRSScheduler.review M p r FSRSRating.hard e.2.1 e.2.2)
        (fun x hx => hl x (List.mem_cons_of_mem e hx)) h0.1 h0.2.1 h0.2.2
      simp only [reviewFold, List.foldl_cons] at hfold ⊢
      rw [he]
      refine ⟨?_, hfold.2.2⟩
      rw [hfold.1]
      decide

/-- Witness for C1 at concrete inputs: the fresh record, reviewed
Good-Good, Easy, and once with Hard. -/
theorem claim_C1_graduation_witness :
    (FSRSScheduler.review mathOne DEFAULT_FSRS_PARAMS
      (FSRSScheduler.review mathOne DEFAULT_FSRS_PARAMS
        (createInitialWordProgress 0) FSRSRating.good 0 drawZero)
      FSRSRating.good 0 drawZero).state = FSRSState.review ∧
    (FSRSScheduler.review mathOne DEFAULT_FSRS_PARAMS
      (createInitialWordProgress 0) FSRSRating.easy 0 drawZero).state =
      FSRSState.review ∧
    (reviewFold mathOne DEFAULT_FSRS_PARAMS (createInitialWordProgress 0)
      [(FSRSRating.hard, 0, drawZero)]).state ≠ FSRSState.review := by
  have h := claim_C1_graduation mathOne DEFAULT_FSRS_PARAMS
    (createInitialWordProgress 0) rfl
  exact ⟨h.1 0 0 drawZero drawZero, h.2.1 0 drawZero,
    (h.2.2 [(FSRSRating.hard, 0, drawZero)] (by simp) (by simp)).1⟩

/-- C8: for every difficulty, stability `s ≥ 0.1` and retrievability, the
post-failure stability computed by `nextStabilityFailure` lies in
`[0.1, s]`; in particular it never exceeds the pre-failure stability.
This holds for every interpretation `M` of the float transcendentals
because of the final clamp. -/
theorem claim_C8_failure_stability_bounds (M : JSMath) (p : FSRSParameters)
    (difficulty stability retr : ℚ) (h : 0.1 ≤ stability) :
    0.1 ≤ FSRSScheduler.nextStabilityFailure M p difficulty stability retr ∧
    FSRSScheduler.nextStabilityFailure M p difficulty stability retr ≤
      stability := by
  unfold FSRSScheduler.nextStabilityFailure
  exact ⟨le_max_left _ _, max_le h (min_le_right _ _)⟩

/-- Witness for C8 at a concrete input. -/
theorem claim_C8_failure_stability_bounds_witness :
    0.1 ≤ FSRSScheduler.nextStabilityFailure mathOne DEFAULT_FSRS_PARAMS 5 1 0 ∧
    FSRSScheduler.nextStabilityFailure mathOne DEFAULT_FSRS_PARAMS 5 1 0 ≤ 1 :=
  claim_C8_failure_stability_bounds mathOne DEFAULT_FSRS_PARAMS 5 1 0 (by norm_num)

set_option maxHeartbeats 1000000 in
/-- One review step keeps stability at or above 0.1, provided the input
record has stability at least 0.1 or is brand new. -/
theorem review_stability_floor (M : JSMath) (p : FSRSParameters)
    (r : SchedulingRecord) (rating : FSRSRating) (now : ℚ) (g : ℕ → ℚ)
    (h : 0.1 ≤ r.stability ∨ r.state = FSRSState.new) :
    0.1 ≤ (FSRSScheduler.review M p r rating now g).stability := by
  simp only [FSRSScheduler.review, FSRSScheduler.reviewLearningPhase,
    FSRSScheduler.reviewDayPhase]
  split_ifs <;> dsimp only
  all_goals try exact le_max_left _ _
  all_goals try (rcases h with hs | hn <;> simp_all)
  all_goals exact Or.inr (by norm_num)

/-- Folding reviews preserves the 0.1 stability floor. -/
theorem reviewFold_stability_floor (M : JSMath) (p : FSRSParameters) :
    ∀ (l : List (FSRSRating × ℚ × (ℕ → ℚ))) (r : SchedulingRecord),
    0.1 ≤ r.stability → 0.1 ≤ (reviewFold M p r l).stability := by
  intro l
  induction l with
  | nil => exact fun r hr => hr
  | cons e tl ih =>
    intro r hr
    simp only [reviewFold, List.foldl_cons] at ih ⊢
    exact ih (FSRSScheduler.review M p r e.1 e.2.1 e.2.2)
      (review_stability_floor M p r e.1 e.2.1 e.2.2 (Or.inl hr))

/-- C6: stability floor invariant.  Every single review of a record with
stability at least 0.1 (or of a brand-new record) yields stability at
least 0.1, and consequently every record reached from a fresh record by a
nonempty sequence of reviews has stability at least 0.1. -/
theorem claim_C6_stability_floor (M : JSMath) (p : FSRSParameters) :
    (∀ (r : SchedulingRecord) (rating : FSRSRating) (now : ℚ) (g : ℕ → ℚ),
      0.1 ≤ r.stability ∨ r.state = FSRSState.new →
      0.1 ≤ (FSRSScheduler.review M p r rating now g).stability) ∧
    (∀ (now0 : ℚ) (l : List (FSRSRating × ℚ × (ℕ → ℚ))), l ≠ [] →
      0.1 ≤ (reviewFold M p (createInitialWordProgress now0) l).stability) := by
  refine ⟨review_stability_floor M p, fun now0 l hne => ?_⟩
  rcases l with _ | ⟨e, tl⟩
  · exact absurd rfl hne
  · simp only [reviewFold, List.foldl_cons]
    have h0 : 0.1 ≤ (FSRSScheduler.review M p (createInitialWordProgress now0)
        e.1 e.2.1 e.2.2).stability :=
      review_stability_floor M p (createInitialWordProgress now0) e.1 e.2.1
        e.2.2 (Or.inr rfl)
    have := reviewFold_stability_floor M p tl
      (FSRSScheduler.review M p (createInitialWordProgress now0) e.1 e.2.1
        e.2.2) h0
    simpa [reviewFold] using this

/-- Witness for C6 at concrete inputs. -/
theorem claim_C6_stability_floor_witness :
    0.1 ≤ (FSRSScheduler.review mathOne DEFAULT_FSRS_PARAMS
      (createInitialWordProgress 0) FSRSRating.again 0 drawZero).stability ∧
    0.1 ≤ (reviewFold mathOne DEFAULT_FSRS_PARAMS
      (createInitialWordProgress 0)
      [(FSRSRating.good, 0, drawZero), (FSRSRating.again, 0, drawZero)]).stability := by
  have h := claim_C6_stability_floor mathOne DEFAULT_FSRS_PARAMS
  exact ⟨h.1 (createInitialWordProgress 0) FSRSRating.again 0 drawZero
      (Or.inr rfl),
    h.2 0 [(FSRSRating.good, 0, drawZero), (FSRSRating.again, 0, drawZero)]
      (by simp)⟩

/-- C10: a record in `state = relearning` inside the learning phase moves
to `state = learning` (never back to `relearning`) on any rating that does
not graduate it: Again, or Hard/Good while the resulting step stays below
the graduation threshold. -/
theorem claim_C10_relearning_single_step (M : JSMath) (p : FSRSParameters)
    (r : SchedulingRecord) (rating : FSRSRating) (now : ℚ) (g : ℕ → ℚ)
    (h1 : r.state = FSRSState.relearning)
    (h2 : r.is_learning_phase = true)
    (h3 : rating = FSRSRating.again ∨
      ((rating = FSRSRating.hard ∨ rating = FSRSRating.good) ∧
        r.learning_step + (if rating = FSRSRating.good then 1 else 0) <
          LEARNING_GRADUATION_STEPS)) :
    (FSRSScheduler.review M p r rating now g).state = FSRSState.learning := by
  rcases h3 with rfl | ⟨hknd, hstep⟩
  · simp +decide [FSRSScheduler.review, FSRSScheduler.reviewLearningPhase, h1,
      h2]
  · rcases hknd with rfl | rfl
    · have hn : ¬ (LEARNING_GRADUATION_STEPS ≤ r.learning_step) :=
        Nat.not_le.mpr (by simpa +decide using hstep)
      simp +decide [FSRSScheduler.review, FSRSScheduler.reviewLearningPhase,
        h1, h2, hn]
    · have hn : ¬ (LEARNING_GRADUATION_STEPS ≤ r.learning_step + 1) :=
        Nat.not_le.mpr (by simpa +decide using hstep)
      simp +decide [FSRSScheduler.review, FSRSScheduler.reviewLearningPhase,
        h1, h2, hn]

/-- A concrete relearning-phase record (as produced by a day-phase Again
review). -/
def relearnRec : SchedulingRecord where
  state := .relearning
  difficulty := 5
  stability := 1
  retrievability := 0
  elapsed_days := 0
  scheduled_days := 0
  due_at := 0
  learning_step := 0
  is_learning_phase := true

/-- Witness for C10 at a concrete input. -/
theorem claim_C10_relearning_single_step_witness :
    (FSRSScheduler.review mathOne DEFAULT_FSRS_PARAMS relearnRec
      FSRSRating.again 0 drawZero).state = FSRSState.learning :=
  claim_C10_relearning_single_step mathOne DEFAULT_FSRS_PARAMS relearnRec
    FSRSRating.again 0 drawZero rfl rfl (Or.inl rfl)

/-- C7: the display projection `stateToMasteryLevel` agrees exactly with
the SQL aggregator's counting rule: `mastered` iff
`state = review ∧ stability > 21`, `new` iff `state = new`, and
`learning` otherwise. -/
theorem claim_C7_mastery_consistency (state : FSRSState) (stability : ℚ) :
    (stateToMasteryLevel state stability = MasteryLevel.mastered ↔
      state = FSRSState.review ∧ 21 < stability) ∧
    (stateToMasteryLevel state stability = MasteryLevel.new ↔
      state = FSRSState.new) ∧
    (stateToMasteryLevel state stability = MasteryLevel.learning ↔
      ¬(state = FSRSState.new) ∧
        ¬(state = FSRSState.review ∧ 21 < stability)) ∧
    (stateToMasteryLevel state stability = MasteryLevel.mastered ↔
      sqlMastered state stability) ∧
    (stateToMasteryLevel state stability = MasteryLevel.new ↔
      sqlNewWord state) ∧
    (stateToMasteryLevel state stability = MasteryLevel.learning ↔
      sqlLearning state stability) := by
  cases state <;> rcases lt_or_le 21 stability with h | h <;>
    simp +decide [stateToMasteryLevel, sqlMastered, sqlLearning, sqlNewWord,
      h, h.not_lt]

/-- C5 (amended): for positive stability and retention strictly between 0
and 1, `nextInterval` returns exactly `round(9·S·(1/r − 1))` with no
internal floor (the clamp to a minimum of 1 day is applied by the
callers, not inside `nextInterval`); for retention ≤ 0 or ≥ 1 the result
is exactly 1. -/
theorem claim_C5_next_interval (stability retention : ℚ) :
    (0 < stability → 0 < retention → retention < 1 →
      FSRSScheduler.nextInterval stability retention =
        jsRound (9 * stability * (1 / retention - 1))) ∧
    (retention ≤ 0 ∨ 1 ≤ retention →
      FSRSScheduler.nextInterval stability retention = 1) := by
  constructor
  · intro h1 h2 h3
    have hc : ¬ (stability ≤ 0 ∨ retention ≤ 0 ∨ 1 ≤ retention) := by
      push_neg
      exact ⟨h1, h2, h3⟩
    simp [FSRSScheduler.nextInterval, hc]
  · intro h
    simp [FSRSScheduler.nextInterval, Or.inr (Or.imp_left id h : _ ∨ _)]

/-- Counterexample for C5 as stated: `nextInterval(0.1, 0.9)` evaluates to
0, not to a value floored at 1. -/
theorem claim_C5_counterexample :
    FSRSScheduler.nextInterval 0.1 0.9 = 0 ∧
    ¬ (1 ≤ FSRSScheduler.nextInterval 0.1 0.9) := by
  norm_num [FSRSScheduler.nextInterval, jsRound]

/-- Witness for the amended C5 at concrete inputs. -/
theorem claim_C5_next_interval_witness :
    FSRSScheduler.nextInterval 1 (1/2) = jsRound (9 * 1 * (1 / (1/2) - 1)) ∧
    FSRSScheduler.nextInterval 1 2 = 1 := by
  refine ⟨(claim_C5_next_interval 1 (1/2)).1 (by norm_num) (by norm_num)
    (by norm_num), (claim_C5_next_interval 1 2).2 (Or.inr (by norm_num))⟩

set_option maxHeartbeats 1000000 in
/-- A review whose outcome is still in the learning phase does not depend
on the random stream: none of the learning-phase branches call
`fuzzInterval`. -/
theorem review_learning_draw_free (M : JSMath) (p : FSRSParameters)
    (prog : SchedulingRecord) (rating : FSRSRating) (now : ℚ)
    (g1 g2 : ℕ → ℚ)
    (h : (FSRSScheduler.review M p prog rating now g1).is_learning_phase =
      true) :
    FSRSScheduler.review M p prog rating now g1 =
      FSRSScheduler.review M p prog rating now g2 := by
  simp only [FSRSScheduler.review, FSRSScheduler.reviewLearningPhase,
    FSRSScheduler.reviewDayPhase] at h ⊢
  split_ifs at h ⊢ <;> rfl

/-- C3 (amended): the preview and a real `review` call are two runs of the
same function of (record, rating, now, randomness draws).  With identical
draws the preview's label equals the label rendered from the real
review's due delta, and whenever the outcome is still in the learning
phase (where no fuzz randomness is consumed) the label matches a real
review under any draws. -/
theorem claim_C3_preview_consistency (M : JSMath) (p : FSRSParameters)
    (prog : SchedulingRecord) (now : ℚ) (g : FSRSRating → ℕ → ℚ)
    (rating : FSRSRating) :
    getSchedulePreview M p prog now g rating =
      deltaLabel now
        (FSRSScheduler.review M p prog rating now (g rating)) ∧
    (∀ g2 : ℕ → ℚ,
      (FSRSScheduler.review M p prog rating now
        (g rating)).is_learning_phase = true →
      getSchedulePreview M p prog now g rating =
        deltaLabel now (FSRSScheduler.review M p prog rating now g2)) := by
  refine ⟨rfl, fun g2 h => ?_⟩
  show deltaLabel now _ = _
  rw [review_learning_draw_free M p prog rating now (g rating) g2 h]

/-- Counterexample for C3 as stated: for a fresh record rated Easy the
preview's internal draws and the real review's draws are independent
samples, so the preview can say "5d" while the real review schedules 7
days. -/
theorem claim_C3_counterexample :
    getSchedulePreview mathOne DEFAULT_FSRS_PARAMS
      (createInitialWordProgress 0) 0 (fun _ => drawZero)
      FSRSRating.easy ≠
    deltaLabel 0 (FSRSScheduler.review mathOne DEFAULT_FSRS_PARAMS
      (createInitialWordProgress 0) FSRSRating.easy 0 drawNine) := by
  have h1 : getSchedulePreview mathOne DEFAULT_FSRS_PARAMS
      (createInitialWordProgress 0) 0 (fun _ => drawZero)
      FSRSRating.easy = "5d" := by
    norm_num +decide [getSchedulePreview, deltaLabel, qstr,
      FSRSScheduler.review, FSRSScheduler.reviewLearningPhase,
      createInitialWordProgress, FSRSScheduler.initStability,
      FSRSScheduler.initDifficulty, FSRSScheduler.nextInterval, jsRound,
      jsFloor, FSRSScheduler.fuzzInterval, FSRSScheduler.addDays,
      DEFAULT_FSRS_PARAMS, DEFAULT_W, LEARNING_STEPS, FSRSRating.val,
      drawZero, LEARNING_GRADUATION_STEPS]
  have h2 : deltaLabel 0 (FSRSScheduler.review mathOne DEFAULT_FSRS_PARAMS
      (createInitialWordProgress 0) FSRSRating.easy 0 drawNine) = "7d" := by
    norm_num +decide [deltaLabel, qstr, FSRSScheduler.review,
      FSRSScheduler.reviewLearningPhase, createInitialWordProgress,
      FSRSScheduler.initStability, FSRSScheduler.initDifficulty,
      FSRSScheduler.nextInterval, jsRound, jsFloor,
      FSRSScheduler.fuzzInterval, FSRSScheduler.addDays,
      DEFAULT_FSRS_PARAMS, DEFAULT_W, LEARNING_STEPS, FSRSRating.val,
      drawNine, LEARNING_GRADUATION_STEPS]
  rw [h1, h2]
  decide

/-- Witness for the amended C3 at a concrete input: a fresh record rated
Good stays in the learning phase, so preview and a differently-seeded
real review agree. -/
theorem claim_C3_preview_consistency_witness :
    getSchedulePreview mathOne DEFAULT_FSRS_PARAMS
      (createInitialWordProgress 0) 0 (fun _ => drawZero)
      FSRSRating.good =
    deltaLabel 0 (FSRSScheduler.review mathOne DEFAULT_FSRS_PARAMS
      (createInitialWordProgress 0) FSRSRating.good 0 drawNine) := by
  refine (claim_C3_preview_consistency mathOne DEFAULT_FSRS_PARAMS
    (createInitialWordProgress 0) 0 (fun _ => drawZero)
    FSRSRating.good).2 drawNine ?_
  norm_num +decide [FSRSScheduler.review, FSRSScheduler.reviewLearningPhase,
    createInitialWordProgress, LEARNING_GRADUATION_STEPS]

/-- C4: evaluation of the code at the failing input.  A fresh record rated
Easy at time 0 with the first `Math.random()` draw 0 and the second 0.9
yields `scheduled_days = 5` but `due_at = now + 7 days`: the two
`fuzzInterval` calls in the graduation branches draw independently, so
`due_at` does not equal `now + scheduled_days` days. -/
theorem claim_C4_scheduled_due_mismatch :
    (FSRSScheduler.review mathOne DEFAULT_FSRS_PARAMS
      (createInitialWordProgress 0) FSRSRating.easy 0
      drawPair).scheduled_days = 5 ∧
    (FSRSScheduler.review mathOne DEFAULT_FSRS_PARAMS
      (createInitialWordProgress 0) FSRSRating.easy 0 drawPair).due_at =
      7 * 86400000 ∧
    (FSRSScheduler.review mathOne DEFAULT_FSRS_PARAMS
      (createInitialWordProgress 0) FSRSRating.easy 0 drawPair).due_at ≠
      0 + (FSRSScheduler.review mathOne DEFAULT_FSRS_PARAMS
        (createInitialWordProgress 0) FSRSRating.easy 0
        drawPair).scheduled_days * 86400000 := by
  norm_num +decide [FSRSScheduler.review, FSRSScheduler.reviewLearningPhase,
    createInitialWordProgress, FSRSScheduler.initStability,
    FSRSScheduler.initDifficulty, FSRSScheduler.nextInterval, jsRound,
    jsFloor, FSRSScheduler.fuzzInterval, FSRSScheduler.addDays,
    DEFAULT_FSRS_PARAMS, DEFAULT_W, LEARNING_STEPS, FSRSRating.val,
    drawPair, LEARNING_GRADUATION_STEPS]

/-- C9: session composition bounds.  The review set is capped by
`reviewLimit` and the new set by `newLimit` for every pool; when fewer due
rows exist than the review limit, all of them are returned (in due-date
order, no padding); and a zero limit yields an empty corresponding set. -/
theorem claim_C9_session_bounds (pool : List PoolRow)
    (allWords : List WordRow) (now : ℚ) (newLimit reviewLimit : ℕ) :
    (getTodayLearningSession pool allWords now newLimit
      reviewLimit).reviewWords.length ≤ reviewLimit ∧
    (getTodayLearningSession pool allWords now newLimit
      reviewLimit).newWords.length ≤ newLimit ∧
    ((pool.filter (fun pr => pr.due_at ≤ now)).length ≤ reviewLimit →
      (getTodayLearningSession pool allWords now newLimit
        reviewLimit).reviewWords =
        (List.insertionSort (fun a b => a.due_at ≤ b.due_at)
          (pool.filter (fun pr => pr.due_at ≤ now))).map poolRowToWord) ∧
    (reviewLimit = 0 →
      (getTodayLearningSession pool allWords now newLimit
        reviewLimit).reviewWords = []) ∧
    (newLimit = 0 →
      (getTodayLearningSession pool allWords now newLimit
        reviewLimit).newWords = []) := by
  simp only [getTodayLearningSession, dueQuery]
  refine ⟨?_, ?_, ?_, ?_, ?_⟩
  · rw [List.length_map, List.length_take]
    exact min_le_left _ _
  · rw [List.length_map, List.length_take]
    exact min_le_left _ _
  · intro h
    rw [List.take_of_length_le]
    rw [List.length_insertionSort]
    exact h
  · intro h
    subst h
    simp
  · intro h
    subst h
    simp

/-- A one-word collection used to instantiate C9. -/
def wordsA : List WordRow :=
  [{ id := 1, word := "alpha", phonetic := none, definition := none }]

/-- Witness for C9 at a concrete input (empty pool, zero limits). -/
theorem claim_C9_session_bounds_witness :
    (getTodayLearningSession [] wordsA 0 0 0).reviewWords.length ≤ 0 ∧
    (getTodayLearningSession [] wordsA 0 0 0).reviewWords =
      (List.insertionSort (fun a b => a.due_at ≤ b.due_at)
        (([] : List PoolRow).filter (fun pr => pr.due_at ≤ 0))).map
        poolRowToWord ∧
    (getTodayLearningSession [] wordsA 0 0 0).newWords = [] := by
  have h := claim_C9_session_bounds [] wordsA 0 0 0
  exact ⟨h.1, h.2.2.1 (by simp), h.2.2.2.2 rfl⟩

end AceEnglish
